import Mathlib

/-!
Shallow embedding of the transpose-future crate (src/src/lib.rs).

A Rust future with output type A is embedded as a state type S together with
a step function of type Ctx -> S -> Poll A x S: polling takes a waker context
and the current state, and returns either Pending together with the updated
state, or Ready with the final value.  The in-place mutation of Rust poll is
made explicit by returning the new state.

TransposedOption<F> holds Option<F>, so its state is Option S and its poll
(lib.rs lines 37-46) delegates to the inner future when the state is some,
and returns Ready none when it is none.

TransposedResult<F, T> holds Result<F, Option<T>>, embedded as
Result S (Option E).  Its poll (lib.rs lines 65-81) can panic: in the err
branch the code runs take().unwrap() on the stored Option, which panics when
the option is already empty.  The embedding therefore returns an
Option (Poll _ x state), with none modelling the panic.
-/

/-- Poll result of a single resumption: either still pending or ready with a
final value, mirroring std::task::Poll. -/
inductive Poll (α : Type) : Type where
  | Pending : Poll α
  | Ready : α → Poll α
deriving DecidableEq, Repr

/-- Poll::map, mirroring the std method used at lib.rs lines 43 and 78. -/
def Poll.map (f : α → β) : Poll α → Poll β
  | .Pending => .Pending
  | .Ready v => .Ready (f v)

/-- Rust Result type. -/
inductive Result (α ε : Type) : Type where
  | ok : α → Result α ε
  | err : ε → Result α ε
deriving DecidableEq, Repr

/-- Result::map. -/
def Result.map (f : α → β) : Result α ε → Result β ε
  | .ok v => .ok (f v)
  | .err e => .err e

/-- Result::map_err. -/
def Result.mapErr (f : ε → δ) : Result α ε → Result α δ
  | .ok v => .ok v
  | .err e => .err (f e)

/-- Constructor impl TransposeFuture for Option<F> (lib.rs lines 30-32):
transpose stores self.map(IntoFuture::into_future).  The IntoFuture
conversion is a caller-supplied function intoFuture. -/
def transposeOption (intoFuture : χ → σ) (x : Option χ) : Option σ :=
  x.map intoFuture

/-- Constructor impl TransposeFuture for Result<F, T> (lib.rs lines 58-60):
transpose stores self.map(IntoFuture::into_future).map_err(Some). -/
def transposeResult (intoFuture : χ → σ) (x : Result χ ε) : Result σ (Option ε) :=
  (x.map intoFuture).mapErr some

/-- Poll of TransposedOption<F> (lib.rs lines 37-46): when the stored state is
some f, delegate to the inner future and wrap the ready value in some; when it
is none, return Ready(None).  This poll has no panic path, so it is a total
function. -/
def TransposedOption.poll (pollF : γ → σ → Poll α × σ) (cx : γ) :
    Option σ → Poll (Option α) × Option σ
  | some f =>
    match pollF cx f with
    | (p, f') => (p.map some, some f')
  | none => (Poll.Ready none, none)

/-- Poll of TransposedResult<F, T> (lib.rs lines 65-81): when the stored state
is ok f, delegate to the inner future and wrap the ready value in ok; when it
is err (some e), take() empties the slot (state becomes err none) and unwrap
returns e, producing Ready(Err(e)); when it is err none, take() returns none
and unwrap panics, modelled by the result none. -/
def TransposedResult.poll (pollF : γ → σ → Poll α × σ) (cx : γ) :
    Result σ (Option ε) → Option (Poll (Result α ε) × Result σ (Option ε))
  | .ok f =>
    match pollF cx f with
    | (p, f') => some (p.map Result.ok, .ok f')
  | .err (some e) => some (Poll.Ready (.err e), .err none)
  | .err none => none

/-- Driving a future to completion: the driver supplies one context per
resumption; the result is some v when the future returns Ready v before the
context list runs out, none otherwise. -/
def drive (pollF : γ → σ → Poll α × σ) : List γ → σ → Option α
  | [], _ => none
  | cx :: cxs, s =>
    match pollF cx s with
    | (.Ready v, _) => some v
    | (.Pending, s') => drive pollF cxs s'

/-- Driving a future whose poll may panic (modelled by poll returning none):
the result is some v on Ready v, and none on fuel exhaustion or panic. -/
def driveFallible (pollF : γ → σ → Option (Poll α × σ)) : List γ → σ → Option α
  | [], _ => none
  | cx :: cxs, s =>
    match pollF cx s with
    | some (.Ready v, _) => some v
    | some (.Pending, s') => driveFallible pollF cxs s'
    | none => none

/-- A concrete future used as a witness: state n counts down, emitting Pending
n times, then completes with 42. -/
def ticker : Unit → Nat → Poll Nat × Nat
  | _, 0 => (Poll.Ready 42, 0)
  | _, n + 1 => (Poll.Pending, n)

/-- Helper: if the inner future driven with contexts cxs completes with v,
then the TransposedOption adapter in state some s driven with the same
contexts completes with some v. -/
theorem drive_transposedOption_some (pollF : γ → σ → Poll α × σ) :
    ∀ (cxs : List γ) (s : σ) (v : α), drive pollF cxs s = some v →
      drive (TransposedOption.poll pollF) cxs (some s) = some (some v) := by
  intro cxs
  induction cxs with
  | nil => intro s v h; simp [drive] at h
  | cons cx cxs ih =>
    intro s v h
    rcases hp : pollF cx s with ⟨p, s'⟩
    cases p with
    | Pending =>
      rw [drive, hp] at h
      rw [drive, TransposedOption.poll, hp]
      exact ih s' v h
    | Ready w =>
      rw [drive, hp] at h
      rw [drive, TransposedOption.poll, hp]
      simp [Poll.map] at h ⊢
      exact h

/-- Helper: if the inner future driven with contexts cxs completes with v,
then the TransposedResult adapter in state ok s driven with the same
contexts completes with ok v, never hitting the panic path. -/
theorem drive_transposedResult_ok (pollF : γ → σ → Poll α × σ) :
    ∀ (cxs : List γ) (s : σ) (v : α), drive pollF cxs s = some v →
      driveFallible (TransposedResult.poll pollF) cxs
        (Result.ok s : Result σ (Option ε)) = some (Result.ok v) := by
  intro cxs
  induction cxs with
  | nil => intro s v h; simp [drive] at h
  | cons cx cxs ih =>
    intro s v h
    rcases hp : pollF cx s with ⟨p, s'⟩
    cases p with
    | Pending =>
      rw [drive, hp] at h
      rw [driveFallible, TransposedResult.poll, hp]
      exact ih s' v h
    | Ready w =>
      rw [drive, hp] at h
      rw [driveFallible, TransposedResult.poll, hp]
      simp [Poll.map] at h ⊢
      exact h

/-- Claim C1: for every input x convertible into a future, if driving that
future directly to completion yields v, then driving the future returned by
transpose(Some(x)) to completion with the same contexts yields Some(v). -/
theorem transpose_some_yields_some (pollF : γ → σ → Poll α × σ)
    (intoFuture : χ → σ) (x : χ) (cxs : List γ) (v : α)
    (h : drive pollF cxs (intoFuture x) = some v) :
    drive (TransposedOption.poll pollF) cxs
      (transposeOption intoFuture (some x)) = some (some v) :=
  drive_transposedOption_some pollF cxs (intoFuture x) v h

/-- Witness for C1: the ticker future starting at state 2 completes with 42
in three polls, and the transposed adapter completes with some 42. -/
theorem transpose_some_yields_some_witness :
    drive ticker [(), (), ()] (id 2) = some 42 ∧
    drive (TransposedOption.poll ticker) [(), (), ()]
      (transposeOption id (some 2)) = some (some 42) :=
  ⟨by decide, transpose_some_yields_some ticker id 2 [(), (), ()] 42 (by decide)⟩

/-- Claim C2: for every input x convertible into a future and every error
type, if driving that future directly to completion yields v, then driving
the future returned by transpose(Ok(x)) to completion with the same contexts
yields Ok(v). -/
theorem transpose_ok_yields_ok (pollF : γ → σ → Poll α × σ)
    (intoFuture : χ → σ) (x : χ) (cxs : List γ) (v : α)
    (h : drive pollF cxs (intoFuture x) = some v) :
    driveFallible (TransposedResult.poll pollF) cxs
      (transposeResult intoFuture (Result.ok x : Result χ ε)) =
      some (Result.ok v) :=
  drive_transposedResult_ok pollF cxs (intoFuture x) v h

/-- Witness for C2: the ticker future starting at state 2 completes with 42,
and the transposed adapter (error type Nat) completes with ok 42. -/
theorem transpose_ok_yields_ok_witness :
    drive ticker [(), (), ()] (id 2) = some 42 ∧
    driveFallible (TransposedResult.poll ticker) [(), (), ()]
      (transposeResult id (Result.ok 2 : Result Nat Nat)) =
      some (Result.ok 42) :=
  ⟨by decide, transpose_ok_yields_ok ticker id 2 [(), (), ()] 42 (by decide)⟩

/-- Claim C3: the first poll of transpose(Err(e)) returns Ready(Err(e)) with
e unmodified, and in the same poll step the stored slot transitions from
err (some e) to err none: production of the result and emptying of the slot
happen in one atomic step of the embedding. -/
theorem poll_err_ready_and_empties (pollF : γ → σ → Poll α × σ) (cx : γ)
    (intoFuture : χ → σ) (e : ε) :
    TransposedResult.poll pollF cx (transposeResult intoFuture (Result.err e)) =
      some (Poll.Ready (Result.err e), Result.err none) := rfl

/-- Claim C4: polling a TransposedOption whose stored state is none returns
Ready(none) and leaves the state none, for the first and hence every
subsequent poll; the poll function is total at this state (no panic) and the
result is never Pending. -/
theorem poll_none_ready_none (pollF : γ → σ → Poll α × σ) (cx : γ) :
    TransposedOption.poll pollF cx (none : Option σ) =
      (Poll.Ready none, none) := rfl

/-- Claim C5: polling an adapter in state some f (TransposedOption) or ok f
(TransposedResult) is exactly the poll of the inner future with the same
context, re-wrapped: Pending maps to Pending and Ready t maps to
Ready (some t), respectively Ready (ok t), with the inner state passed
through. -/
theorem poll_delegates (pollF : γ → σ → Poll α × σ) (cx : γ) (f : σ) :
    TransposedOption.poll pollF cx (some f) =
      ((pollF cx f).1.map some, some (pollF cx f).2) ∧
    TransposedResult.poll pollF cx (Result.ok f : Result σ (Option ε)) =
      some ((pollF cx f).1.map Result.ok, Result.ok (pollF cx f).2) := by
  rcases hp : pollF cx f with ⟨p, s'⟩
  constructor
  · rw [TransposedOption.poll, hp]
  · rw [TransposedResult.poll, hp]

/-- Counterexample to C6 as stated: with the error slot already consumed
(state err none), the poll of TransposedResult does not return Ready at all:
it panics (modelled by none), refuting the claim that every poll in an
absent state returns Ready. -/
theorem poll_err_none_not_ready :
    ¬ ∃ r, TransposedResult.poll ticker ()
      (Result.err (none : Option Nat) : Result Nat (Option Nat)) = some r := by
  rintro ⟨r, h⟩
  simp [TransposedResult.poll] at h

/-- Claim C6 amended: when the wrapped value is absent, the adapter never
suspends: a TransposedOption in state none returns Ready(none)
synchronously, a TransposedResult in state err (some e) returns
Ready(err e) synchronously, and a TransposedResult in state err none panics
rather than returning Pending (it never suspends, but it does not return
Ready either). -/
theorem absent_never_pending (pollF : γ → σ → Poll α × σ) (cx : γ) (e : ε) :
    TransposedOption.poll pollF cx (none : Option σ) =
      (Poll.Ready none, none) ∧
    TransposedResult.poll pollF cx (Result.err (some e) : Result σ (Option ε)) =
      some (Poll.Ready (Result.err e), Result.err none) ∧
    TransposedResult.poll pollF cx (Result.err (none : Option ε) : Result σ (Option ε)) =
      none :=
  ⟨rfl, rfl, rfl⟩

/-- Claim C7: under correct usage an adapter never panics: the poll of
TransposedOption is a total function, and the poll of TransposedResult
returns a defined result at every state other than err none, the state only
reachable by polling again after the Err result was surrendered. -/
theorem poll_no_panic_correct_usage (pollF : γ → σ → Poll α × σ) (cx : γ)
    (s : Result σ (Option ε)) (h : s ≠ Result.err none) :
    ∃ r, TransposedResult.poll pollF cx s = some r := by
  match s with
  | Result.ok f =>
    rcases hp : pollF cx f with ⟨p, s'⟩
    exact ⟨(p.map Result.ok, Result.ok s'), by rw [TransposedResult.poll, hp]⟩
  | Result.err (some e) =>
    exact ⟨(Poll.Ready (Result.err e), Result.err none), rfl⟩
  | Result.err none => exact absurd rfl h

/-- Witness for C7: a TransposedResult in state ok 2 over the ticker future
is not in state err none, and polling it returns a defined result. -/
theorem poll_no_panic_correct_usage_witness :
    (Result.ok 2 : Result Nat (Option Nat)) ≠ Result.err none ∧
    ∃ r, TransposedResult.poll ticker ()
      (Result.ok 2 : Result Nat (Option Nat)) = some r :=
  ⟨by decide, poll_no_panic_correct_usage ticker () (Result.ok 2) (by decide)⟩

/-- Claim C8: construction via transpose is a pure function (it never
suspends and never fails) and eagerly converts the payload to future form:
transpose(Some x) stores some (intoFuture x), transpose(None) stores none,
transpose(Ok x) stores ok (intoFuture x), and transpose(Err e) stores
err (some e); no poll of the inner computation occurs. -/
theorem transpose_construction (intoFuture : χ → σ) (x : χ) (e : ε) :
    transposeOption intoFuture (some x) = some (intoFuture x) ∧
    transposeOption intoFuture (none : Option χ) = none ∧
    transposeResult intoFuture (Result.ok x : Result χ ε) =
      Result.ok (intoFuture x) ∧
    transposeResult intoFuture (Result.err e : Result χ ε) =
      Result.err (some e) :=
  ⟨rfl, rfl, rfl, rfl⟩

/-- Claim C9: polling a TransposedResult whose stored state is err none,
that is, polling again after it already completed with Err, panics: the
take().unwrap() at lib.rs line 79 finds the slot empty, modelled by the poll
returning none rather than any Ready or Pending result. -/
theorem poll_err_none_panics (pollF : γ → σ → Poll α × σ) (cx : γ) :
    TransposedResult.poll pollF cx
      (Result.err (none : Option ε) : Result σ (Option ε)) = none := rfl

/-- Claim C10: no poll changes the discriminant of the stored state: some
stays some, none stays none, ok stays ok, and err stays err; the only
mutation the adapters perform beyond delegating to the inner future is
replacing err (some e) by err none when completing with Err(e). -/
theorem poll_preserves_discriminant (pollF : γ → σ → Poll α × σ) (cx : γ)
    (f : σ) (e : ε) :
    (∃ f', TransposedOption.poll pollF cx (some f) =
      ((pollF cx f).1.map some, some f')) ∧
    TransposedOption.poll pollF cx (none : Option σ) =
      (Poll.Ready none, none) ∧
    (∃ f', TransposedResult.poll pollF cx (Result.ok f : Result σ (Option ε)) =
      some ((pollF cx f).1.map Result.ok, Result.ok f')) ∧
    TransposedResult.poll pollF cx (Result.err (some e) : Result σ (Option ε)) =
      some (Poll.Ready (Result.err e), Result.err none) := by
  rcases hp : pollF cx f with ⟨p, s'⟩
  refine ⟨⟨s', ?_⟩, rfl, ⟨s', ?_⟩, rfl⟩
  · rw [TransposedOption.poll, hp]
  · rw [TransposedResult.poll, hp]
